import Mathlib

/-!
# Verification of the openmodel dispatch core

A shallow embedding of the openmodel gateway's core components, translated
from the Go source:

* the availability tracker (`internal/state`): per-target failure counting,
  unavailability marking, and the progressive timeout;
* the dispatch loop of the HTTP handlers (`internal/server/handlers.go`):
  the chain walk with skipping, failure attribution and the 503 exhaustion
  path;
* the streaming pumps (SSE framing with the `data: [DONE]` sentinel) and the
  line-level stream producer of the OpenAI-dialect provider client;
* the format bridge between OpenAI-style and Ollama-native chat responses.

Go maps indexed with zero-value defaults are modelled as total functions
(`String → Int` with default `0`, `String → Bool` with default `false`),
which is observationally equivalent to Go map indexing: the source only ever
reads maps by indexing, inserts, and deletes.
-/

namespace OpenModel

/-! ## Availability tracker (`internal/state`, `State`) -/

/-- The tracker state. `failureCounts` models `failureCounts map[string]int`
(absent key = 0), `unavailableModels` models `unavailableModels map[string]bool`
(absent key = false). -/
structure TrackerState where
  failureCounts : String → Int
  unavailableModels : String → Bool
  currentTimeout : Int
  cycle : Int

/-- `state.New(initialTimeout)`: empty maps, `currentTimeout = initialTimeout`,
zero `cycle`. -/
def TrackerState.new (initialTimeout : Int) : TrackerState :=
  { failureCounts := fun _ => 0
    unavailableModels := fun _ => false
    currentTimeout := initialTimeout
    cycle := 0 }

/-- `RecordFailure`: increment the failure count of `model`; if the new count
reaches `threshold`, mark `model` unavailable. -/
def recordFailure (s : TrackerState) (model : String) (threshold : Int) : TrackerState :=
  { s with
    failureCounts := fun k => if k = model then s.failureCounts model + 1 else s.failureCounts k
    unavailableModels :=
      if s.failureCounts model + 1 ≥ threshold then
        fun k => if k = model then true else s.unavailableModels k
      else s.unavailableModels }

/-- `IsAvailable`: false when `model` is marked unavailable, otherwise the
failure count must be below `threshold`. -/
def isAvailable (s : TrackerState) (model : String) (threshold : Int) : Bool :=
  if s.unavailableModels model then false
  else decide (s.failureCounts model < threshold)

/-- `ResetModel`: delete `model` from both maps. -/
def resetModel (s : TrackerState) (model : String) : TrackerState :=
  { s with
    failureCounts := fun k => if k = model then 0 else s.failureCounts k
    unavailableModels := fun k => if k = model then false else s.unavailableModels k }

/-- `GetProgressiveTimeout`: read `currentTimeout`. -/
def getProgressiveTimeout (s : TrackerState) : Int :=
  s.currentTimeout

/-- `IncrementTimeout(max)`: double `currentTimeout`, clamp at `max`,
increment `cycle`. -/
def incrementTimeout (s : TrackerState) (max : Int) : TrackerState :=
  { s with
    currentTimeout :=
      if s.currentTimeout * 2 > max then max else s.currentTimeout * 2
    cycle := s.cycle + 1 }

/-- Iterated `IncrementTimeout`: the timeout after `n` chain exhaustions. -/
def iterTimeout (max : Int) : Nat → TrackerState → TrackerState
  | 0, s => s
  | n + 1, s => iterTimeout max n (incrementTimeout s max)

/-! ## Tracker operation sequences (for invariant I1) -/

/-- One tracker operation, as invoked by the dispatch core. The read-only
operations (`IsAvailable`, `GetProgressiveTimeout`) are included to mirror the
full operation set; they do not mutate the state. -/
inductive TrackerOp where
  | record (model : String)
  | reset (model : String)
  | query (model : String)
  | readTimeout
  | advance (max : Int)

/-- Apply one operation; `record` uses the fixed configured threshold `th`. -/
def applyOp (th : Int) (s : TrackerState) : TrackerOp → TrackerState
  | .record m => recordFailure s m th
  | .reset m => resetModel s m
  | .query _ => s
  | .readTimeout => s
  | .advance mx => incrementTimeout s mx

/-- Run a sequence of tracker operations from a state. -/
def runOps (th : Int) (s : TrackerState) (ops : List TrackerOp) : TrackerState :=
  ops.foldl (applyOp th) s

/-- Invariant I1: a key whose failure count is below the threshold is not in
the unavailable set. -/
def InvariantI1 (th : Int) (s : TrackerState) : Prop :=
  ∀ k, s.failureCounts k < th → s.unavailableModels k = false

/-! ## Embeddings input coercion (`handlers.go`, `convertInputToSlice`) -/

/-- A decoded JSON value as Go's `encoding/json` produces it into `any`:
strings, arrays (`[]any`), numbers (`float64`), objects (`map[string]any`),
booleans and `null`. `convertInputToSlice` only inspects the dynamic type, so
the numeric payload is irrelevant and omitted. -/
inductive GoJSONValue where
  | str (s : String)
  | arr (xs : List GoJSONValue)
  | num
  | obj (fields : List (String × GoJSONValue))
  | boolean (b : Bool)
  | null

/-- `convertInputToSlice`: a string becomes a one-element slice; an array
keeps exactly its string elements in order; every other shape yields `nil`. -/
def convertInputToSlice (input : GoJSONValue) : List String :=
  match input with
  | .str s => [s]
  | .arr xs =>
      xs.filterMap fun item =>
        match item with
        | .str s => some s
        | _ => none
  | _ => []

/-- Whether a JSON value is a string (the `item.(string)` type assertion). -/
def GoJSONValue.isStr : GoJSONValue → Bool
  | .str _ => true
  | _ => false

/-- The string payload of a JSON string value (`""` on other shapes). -/
def GoJSONValue.strVal : GoJSONValue → String
  | .str s => s
  | _ => ""

/-! ## Format bridge types

Lean models of `internal/api/openai` and `internal/api/ollama` response
types, restricted to the fields the bridge functions read or write.
`time.Time` values are modelled by their Unix-seconds integer. -/

/-- `openai.ChatCompletionMessage` (the `Name` field is never touched by the
bridge). -/
structure OpenAIMessage where
  role : String
  content : String
deriving DecidableEq

/-- `openai.ChatCompletionChoice` as read by the bridge: `Message` is a
nullable pointer, `FinishReason` a plain string. -/
structure OpenAIChoice where
  index : Int
  message : Option OpenAIMessage
  finishReason : String
deriving DecidableEq

/-- `openai.Usage`. -/
structure OpenAIUsage where
  promptTokens : Int
  completionTokens : Int
  totalTokens : Int
deriving DecidableEq

/-- `openai.ChatCompletionResponse` restricted to the fields the bridge
reads or writes (`SystemFingerprint` is untouched). -/
structure OpenAIChatResponse where
  id : String
  object : String
  created : Int
  model : String
  choices : List OpenAIChoice
  usage : Option OpenAIUsage
deriving DecidableEq

/-- `ollama.Message` (`Images` is never produced by the bridge). -/
structure OllamaMessage where
  role : String
  content : String
deriving DecidableEq

/-- `ollama.Metrics` restricted to the two fields the bridge writes. -/
structure OllamaMetrics where
  promptEvalCount : Int
  evalCount : Int
deriving DecidableEq

/-- `ollama.ChatResponse`; `createdAt` holds the Unix seconds of `CreatedAt`
(`0` for Go's zero `time.Time`). -/
structure OllamaChatResponse where
  model : String
  createdAt : Int
  message : Option OllamaMessage
  done : Bool
  metrics : Option OllamaMetrics
deriving DecidableEq

/-- `convertChatResponse` (OpenAI → Ollama direction of the bridge): with no
choices, only `Model` and `Done = true` are set; otherwise the first choice's
message maps field-by-field, `Done` is whether `FinishReason` is non-empty,
and `Usage` maps to `Metrics`. -/
def convertChatResponse (resp : OpenAIChatResponse) : OllamaChatResponse :=
  match resp.choices with
  | [] =>
      { model := resp.model, createdAt := 0, message := none, done := true, metrics := none }
  | choice :: _ =>
      { model := resp.model
        createdAt := resp.created
        message := choice.message.map fun m => { role := m.role, content := m.content }
        done := choice.finishReason != ""
        metrics := resp.usage.map fun u =>
          { promptEvalCount := u.promptTokens, evalCount := u.completionTokens } }

/-- `ollamaChatToOpenAIResponse` (Ollama → OpenAI direction of the bridge).
The Go function synthesises a fresh id suffix (`uuid.New().String()[:8]`) and
`time.Now().Unix()`; both enter here as the parameters `idSuffix` and `now`.
The Go code dereferences `resp.Message` unconditionally; the `none` case
(a nil pointer, on which Go would panic) is modelled as `none`. The returned
choice hard-codes `Role = "assistant"` and `FinishReason = "stop"`. -/
def ollamaChatToOpenAIResponse (resp : OllamaChatResponse) (model : String)
    (idSuffix : String) (now : Int) : Option OpenAIChatResponse :=
  resp.message.map fun msg =>
    { id := "chatcmpl-" ++ idSuffix
      object := "chat.completion"
      created := now
      model := model
      choices :=
        [{ index := 0
           message := some { role := "assistant", content := msg.content }
           finishReason := "stop" }]
      usage := some
        { promptTokens := ((resp.metrics.map OllamaMetrics.promptEvalCount).getD 0)
          completionTokens := ((resp.metrics.map OllamaMetrics.evalCount).getD 0)
          totalTokens := ((resp.metrics.map OllamaMetrics.promptEvalCount).getD 0) +
            ((resp.metrics.map OllamaMetrics.evalCount).getD 0) } }

/-- The round trip of the bridge at the handler's composition
(`ollamaChatToOpenAIResponse ∘ convertChatResponse`); the synthesised id
suffix and timestamp are fixed arbitrarily, as the claimed field set does not
contain them. -/
def bridgeRoundTrip (r : OpenAIChatResponse) : Option OpenAIChatResponse :=
  ollamaChatToOpenAIResponse (convertChatResponse r) r.model "ffffffff" 0

/-- Field accessor: role of the first choice's message. -/
def chatRole (r : OpenAIChatResponse) : Option String :=
  r.choices.head?.bind fun c => c.message.map OpenAIMessage.role

/-- Field accessor: content of the first choice's message. -/
def chatContent (r : OpenAIChatResponse) : Option String :=
  r.choices.head?.bind fun c => c.message.map OpenAIMessage.content

/-- Field accessor: finish reason of the first choice. -/
def chatFinish (r : OpenAIChatResponse) : Option String :=
  r.choices.head?.map OpenAIChoice.finishReason

/-- Field accessor: prompt token count (`prompt_eval_count` on the Ollama
side). -/
def chatPromptCount (r : OpenAIChatResponse) : Option Int :=
  r.usage.map OpenAIUsage.promptTokens

/-- Field accessor: completion token count (`eval_count` on the Ollama
side). -/
def chatEvalCount (r : OpenAIChatResponse) : Option Int :=
  r.usage.map OpenAIUsage.completionTokens

/-- A concrete OpenAI-style chat response whose first choice has a non-default
role and finish reason. -/
def bridgeProbe : OpenAIChatResponse :=
  { id := "x"
    object := "chat.completion"
    created := 7
    model := "m"
    choices :=
      [{ index := 0
         message := some { role := "user", content := "hi" }
         finishReason := "length" }]
    usage := some { promptTokens := 2, completionTokens := 3, totalTokens := 5 } }

/-- As `bridgeProbe`, but with the values the bridge is able to reproduce:
role `"assistant"` and finish reason `"stop"`. -/
def bridgeProbeAssistant : OpenAIChatResponse :=
  { id := "x"
    object := "chat.completion"
    created := 7
    model := "m"
    choices :=
      [{ index := 0
         message := some { role := "assistant", content := "hi" }
         finishReason := "stop" }]
    usage := some { promptTokens := 2, completionTokens := 3, totalTokens := 5 } }

/-! ## Streaming pumps (`handlers.go`, `streamV1ChatCompletions` and
`streamV1Completions`) -/

/-- A choice of a provider-channel chat chunk as the SSE pump reads it: the
pump unconditionally dereferences `c.Message`, so the message is a plain
field here. -/
structure UpstreamChoice where
  index : Int
  message : OpenAIMessage
  finishReason : String
deriving DecidableEq

/-- A chat chunk delivered on the provider's stream channel; only `Choices`
is read by the pump. -/
structure UpstreamChunk where
  choices : List UpstreamChoice
deriving DecidableEq

/-- One choice of an emitted `openai.ChatCompletionChunk`. The pump always
takes the address of a fresh copy of the upstream finish reason, so
`finishReason` is always `some _` in emitted chunks. -/
structure OutChunkChoice where
  index : Int
  deltaRole : String
  deltaContent : String
  finishReason : Option String
deriving DecidableEq

/-- An emitted `openai.ChatCompletionChunk`. -/
structure OutChunk where
  id : String
  object : String
  created : Int
  model : String
  choices : List OutChunkChoice
deriving DecidableEq

/-- One element of the client-visible SSE stream of a chat request: a
`data: <chunk json>` event or the final `data: [DONE]` sentinel. -/
inductive SSEItem where
  | chunkEv (c : OutChunk)
  | doneEv
deriving DecidableEq

/-- The chat SSE pump: one event per upstream chunk, each stamped with the
stream-constant id (`"chatcmpl-" + idSuffix`), `created` and the
client-requested model; the `[DONE]` sentinel is appended after the channel
closes. (`json.Marshal` of these chunk structs cannot fail, so the
marshal-error `continue` is dead code and has no counterpart here.) -/
def pumpChatSSE (idSuffix : String) (now : Int) (reqModel : String)
    (chunks : List UpstreamChunk) : List SSEItem :=
  (chunks.map fun resp =>
    SSEItem.chunkEv
      { id := "chatcmpl-" ++ idSuffix
        object := "chat.completion.chunk"
        created := now
        model := reqModel
        choices := resp.choices.map fun c =>
          { index := c.index
            deltaRole := c.message.role
            deltaContent := c.message.content
            finishReason := some c.finishReason } })
  ++ [SSEItem.doneEv]

/-- `openai.CompletionChoice` as carried through the legacy completions
stream. -/
structure CompletionChoiceR where
  text : String
  index : Int
  finishReason : String
deriving DecidableEq

/-- `openai.CompletionResponse` restricted to the fields the legacy pump
reads or overwrites. -/
structure CompletionResponseR where
  id : String
  object : String
  created : Int
  model : String
  choices : List CompletionChoiceR
deriving DecidableEq

/-- One element of the client-visible SSE stream of a legacy completions
request. -/
inductive CompSSEItem where
  | respEv (r : CompletionResponseR)
  | doneEv
deriving DecidableEq

/-- The legacy completions SSE pump: each upstream response is re-stamped
with the stream-constant id (`"cmpl-" + idSuffix`), `created` and the
client-requested model before emission; `[DONE]` follows the last one. -/
def pumpCompletionsSSE (idSuffix : String) (now : Int) (reqModel : String)
    (resps : List CompletionResponseR) : List CompSSEItem :=
  (resps.map fun r =>
    CompSSEItem.respEv { r with id := "cmpl-" ++ idSuffix, created := now, model := reqModel })
  ++ [CompSSEItem.doneEv]

/-- Hexadecimal digit test for the id-shape property. -/
def isHexDigitChar (ch : Char) : Bool :=
  ch.isDigit || ('a' ≤ ch && ch ≤ 'f') || ('A' ≤ ch && ch ≤ 'F')

/-- Whether a string consists of exactly 8 hexadecimal characters (the shape
of `uuid.New().String()[:8]`, the first dash of a canonical UUID string being
at index 8). -/
def isHex8 (s : String) : Bool :=
  s.length == 8 && s.toList.all isHexDigitChar

/-! ## Dispatch core (`handlers.go`, `handleV1ChatCompletions` and
`handleAllProvidersFailed`) -/

/-- `config.ModelProvider`: one entry of a logical model's chain. -/
structure ModelProviderEntry where
  provider : String
  model : String
deriving DecidableEq

/-- The per-target bookkeeping key, `fmt.Sprintf("%s/%s", provider, model)`. -/
def backendKey (e : ModelProviderEntry) : String :=
  e.provider ++ "/" ++ e.model

/-- A provider client as the chat handler uses it: the blocking `Chat` call
and the `StreamChat` call. Each is modelled by its observable outcome for a
given upstream model: an error, or the response (for `StreamChat`: the finite
sequence of chunks the returned channel will deliver). -/
structure ProviderClient where
  chat : String → Except String OpenAIChatResponse
  streamChat : String → Except String (List UpstreamChunk)

/-- Outcome of the chain walk inside `handleV1ChatCompletions`. -/
inductive LoopResult where
  | served (entry : ModelProviderEntry) (resp : OpenAIChatResponse)
  | streamed (entry : ModelProviderEntry) (events : List SSEItem)
  | streamFailed (msg : String)
  | exhausted (lastErr : Option String)

/-- The chain walk of `handleV1ChatCompletions`: entries in configured order;
unavailable targets and entries whose provider is absent are skipped
(state untouched); a failing blocking call records a failure and sets
`lastErr` before advancing; a successful blocking call resets the target and
returns; with the stream flag set, control passes to the pump at the first
viable entry and the walk returns unconditionally. -/
def dispatchLoop (provs : String → Option ProviderClient) (th : Int) (streamFlag : Bool)
    (idSuffix : String) (now : Int) (reqModel : String) :
    List ModelProviderEntry → TrackerState → Option String → LoopResult × TrackerState
  | [], s, lastErr => (.exhausted lastErr, s)
  | e :: rest, s, lastErr =>
    if isAvailable s (backendKey e) th then
      match provs e.provider with
      | none => dispatchLoop provs th streamFlag idSuffix now reqModel rest s lastErr
      | some p =>
        if streamFlag then
          match p.streamChat e.model with
          | .error err => (.streamFailed err, recordFailure s (backendKey e) th)
          | .ok chunks =>
              (.streamed e (pumpChatSSE idSuffix now reqModel chunks),
                resetModel s (backendKey e))
        else
          match p.chat e.model with
          | .error err =>
              dispatchLoop provs th streamFlag idSuffix now reqModel rest
                (recordFailure s (backendKey e) th) (some err)
          | .ok resp => (.served e resp, resetModel s (backendKey e))
    else dispatchLoop provs th streamFlag idSuffix now reqModel rest s lastErr

/-- The 503 exhaustion response. -/
structure FailResponse where
  status : Nat
  retryAfter : Int
  body : String
deriving DecidableEq

/-- `handleAllProvidersFailed`: read the progressive timeout, advance it
once, and emit one 503 whose `Retry-After` is `timeout/1000` (Go integer
division) and whose body is the last error's message, defaulting to
`"all providers failed"`. -/
def handleAllProvidersFailed (maxTimeout : Int) (s : TrackerState)
    (lastErr : Option String) : FailResponse × TrackerState :=
  ({ status := 503
     retryAfter := (getProgressiveTimeout s).tdiv 1000
     body := lastErr.getD "all providers failed" },
   incrementTimeout s maxTimeout)

/-- The HTTP outcome of a chat-completions request after model lookup. -/
inductive HandlerResult where
  | ok (entry : ModelProviderEntry) (resp : OpenAIChatResponse)
  | sse (entry : ModelProviderEntry) (events : List SSEItem)
  | serverError (status : Nat) (msg : String)
  | unavailable (resp : FailResponse)

/-- `handleV1ChatCompletions` after decoding and chain lookup: walk the
chain with `lastErr = nil`, then serialize the outcome (200 JSON, SSE
stream, 500 from a failed stream start, or the single 503 of
`handleAllProvidersFailed`). -/
def handleChatCompletions (provs : String → Option ProviderClient) (th maxTimeout : Int)
    (streamFlag : Bool) (idSuffix : String) (now : Int) (reqModel : String)
    (chain : List ModelProviderEntry) (s : TrackerState) : HandlerResult × TrackerState :=
  match dispatchLoop provs th streamFlag idSuffix now reqModel chain s none with
  | (.served e r, s1) => (.ok e r, s1)
  | (.streamed e evs, s1) => (.sse e evs, s1)
  | (.streamFailed msg, s1) => (.serverError 500 msg, s1)
  | (.exhausted le, s1) =>
      (.unavailable (handleAllProvidersFailed maxTimeout s1 le).1,
        (handleAllProvidersFailed maxTimeout s1 le).2)

/-- Whether the walk would neither skip an entry for unavailability nor for a
missing provider, judged in state `s`. -/
def viableEntry (provs : String → Option ProviderClient) (th : Int) (s : TrackerState)
    (e : ModelProviderEntry) : Bool :=
  isAvailable s (backendKey e) th && (provs e.provider).isSome

/-! ## Stream producer (`provider` package, `OpenAIProvider.StreamChat`
reader goroutine) -/

/-- One line read from the upstream response body, pre-classified the way
the producer's checks classify it: a `data: ` line whose payload parses as a
chunk, the literal `data: [DONE]`, a `data: ` line that fails to parse, or a
line without the `data: ` prefix. -/
inductive StreamLine where
  | data (chunk : UpstreamChunk)
  | doneMark
  | malformed
  | other

/-- The chunks the producer goroutine sends on the channel: lines without the
prefix and malformed payloads are skipped, `data: [DONE]` stops the loop, and
every parsed chunk is forwarded. -/
def producerChunks : List StreamLine → List UpstreamChunk
  | [] => []
  | .data c :: rest => c :: producerChunks rest
  | .doneMark :: _ => []
  | .malformed :: rest => producerChunks rest
  | .other :: rest => producerChunks rest

/-- Why the upstream body stopped yielding lines: a clean EOF, or a read
error (`bufio.Scanner.Scan` returns false in both cases, and the producer
never consults `scanner.Err()`). -/
inductive UpstreamEnd where
  | cleanEof
  | readError
deriving DecidableEq

/-- What the client of a streaming chat request observes: a 500-family error
body (when `StreamChat` failed before the pump started), or the SSE event
sequence. -/
inductive ClientStreamView where
  | errorBody (status : Nat) (msg : String)
  | sse (items : List SSEItem)

/-- The client-visible stream of one streaming chat request, as a function of
the `StreamChat` outcome (`error` = it failed before returning a channel;
`ok lines` = the channel reads these body lines) and of how the upstream body
terminated. The termination cause is never inspected by the source, which is
why the parameter is unused. -/
def streamClientView (idSuffix : String) (now : Int) (reqModel : String)
    (streamRes : Except String (List StreamLine)) (_endCause : UpstreamEnd) :
    ClientStreamView :=
  match streamRes with
  | .error msg => .errorBody 500 msg
  | .ok lines => .sse (pumpChatSSE idSuffix now reqModel (producerChunks lines))

/-- Whether the client-visible stream ends with the `data: [DONE]` sentinel. -/
def endsWithDoneSentinel (v : ClientStreamView) : Bool :=
  match v with
  | .errorBody _ _ => false
  | .sse items =>
      match items.getLast? with
      | some .doneEv => true
      | _ => false

/-! ## Concrete fixtures used by witnesses -/

/-- A concrete chain entry. -/
def entryEx : ModelProviderEntry := { provider := "p1", model := "m1" }

/-- A concrete blocking-chat response. -/
def respEx : OpenAIChatResponse :=
  { id := "r1", object := "chat.completion", created := 1, model := "m",
    choices := [], usage := none }

/-- A concrete provider whose blocking chat succeeds and whose stream start
fails. -/
def provEx : ProviderClient :=
  { chat := fun _ => .ok respEx
    streamChat := fun _ => .error "boom" }

/-- A concrete provider map containing only `"p1"`. -/
def provsEx : String → Option ProviderClient :=
  fun name => if name = "p1" then some provEx else none

end OpenModel

namespace OpenModel

/-! ## Theorems: availability tracker -/

/-- Step lemma: every single tracker operation preserves invariant I1. -/
theorem applyOp_preserves_I1 (th : Int) (s : TrackerState) (op : TrackerOp)
    (h : InvariantI1 th s) : InvariantI1 th (applyOp th s op) := by
  cases op with
  | record m =>
    intro k hk
    by_cases hkm : k = m
    · subst hkm
      simp only [applyOp, recordFailure] at hk ⊢
      simp at hk
      rw [if_neg (by omega : ¬ (s.failureCounts k + 1 ≥ th))]
      exact h k (by omega)
    · simp only [applyOp, recordFailure] at hk ⊢
      rw [if_neg hkm] at hk
      by_cases hth : s.failureCounts m + 1 ≥ th
      · rw [if_pos hth]
        simp only [if_neg hkm]
        exact h k hk
      · rw [if_neg hth]
        exact h k hk
  | reset m =>
    intro k hk
    simp only [applyOp, resetModel] at hk ⊢
    by_cases hkm : k = m
    · simp [hkm]
    · simp only [if_neg hkm] at hk ⊢
      exact h k hk
  | query m => exact h
  | readTimeout => exact h
  | advance mx =>
    intro k hk
    simp only [applyOp, incrementTimeout] at hk ⊢
    exact h k hk

/-- Run lemma: invariant I1 is preserved by any sequence of operations. -/
theorem runOps_preserves_I1 (th : Int) (ops : List TrackerOp) :
    ∀ s : TrackerState, InvariantI1 th s → InvariantI1 th (runOps th s ops) := by
  induction ops with
  | nil => intro s h; exact h
  | cons op rest ih =>
    intro s h
    exact ih (applyOp th s op) (applyOp_preserves_I1 th s op h)

/-- C3: `IsAvailable(key, threshold)` returns true iff the key is not in the
unavailable set and its failure count (0 when absent) is strictly below the
threshold. -/
theorem isAvailable_iff (s : TrackerState) (key : String) (threshold : Int) :
    isAvailable s key threshold = true ↔
      (s.unavailableModels key = false ∧ s.failureCounts key < threshold) := by
  unfold isAvailable
  cases h : s.unavailableModels key <;> simp [h]

/-- C9: invariant I1 holds in every state reachable from the initial state by
any sequence of `record_failure`, `reset`, `is_available`,
`progressive_timeout_ms` and `advance_timeout` operations (with the fixed
configured threshold): whenever `failures[k] < failures_before_switch`, `k`
is not in the unavailable set. -/
theorem invariantI1_reachable (th initialTimeout : Int) (ops : List TrackerOp) :
    InvariantI1 th (runOps th (TrackerState.new initialTimeout) ops) := by
  apply runOps_preserves_I1
  intro k _
  rfl

/-- Witness for C9: after recording one failure for `"a"` against threshold 2,
the count `1` is below the threshold and `"a"` is indeed not unavailable. -/
theorem invariantI1_reachable_witness :
    (runOps 2 (TrackerState.new 10000) [TrackerOp.record "a"]).unavailableModels "a" = false :=
  invariantI1_reachable 2 10000 [TrackerOp.record "a"] "a" (by decide)

/-- C5: one call to `advance_timeout` sets the timeout to
`min(current × 2, max)` and increments `cycle` by one; and from any state
whose timeout lies in `[0, max]`, the iterated timeout sequence is monotone
non-decreasing and never exceeds `max`. -/
theorem advance_timeout_spec (max : Int) (s : TrackerState) :
    ((incrementTimeout s max).currentTimeout = min (s.currentTimeout * 2) max ∧
      (incrementTimeout s max).cycle = s.cycle + 1) ∧
    (0 ≤ s.currentTimeout → s.currentTimeout ≤ max →
      ∀ n : Nat,
        (iterTimeout max n s).currentTimeout ≤ (iterTimeout max (n + 1) s).currentTimeout ∧
        (iterTimeout max n s).currentTimeout ≤ max) := by
  constructor
  · constructor
    · simp only [incrementTimeout]
      split <;> omega
    · rfl
  · intro h0 hmax n
    induction n generalizing s with
    | zero =>
      refine ⟨?_, hmax⟩
      simp only [iterTimeout, incrementTimeout]
      split <;> omega
    | succ n ih =>
      have hstep0 : 0 ≤ (incrementTimeout s max).currentTimeout := by
        simp only [incrementTimeout]; split <;> omega
      have hstepmax : (incrementTimeout s max).currentTimeout ≤ max := by
        simp only [incrementTimeout]; split <;> omega
      exact ih (incrementTimeout s max) hstep0 hstepmax

/-- Witness for C5: from timeout 10000 with max 40000, the first iterate is
monotone (10000 ≤ 20000) and bounded. -/
theorem advance_timeout_spec_witness :
    (iterTimeout 40000 0 (TrackerState.new 10000)).currentTimeout ≤
      (iterTimeout 40000 1 (TrackerState.new 10000)).currentTimeout ∧
    (iterTimeout 40000 0 (TrackerState.new 10000)).currentTimeout ≤ 40000 :=
  (advance_timeout_spec 40000 (TrackerState.new 10000)).2 (by decide) (by decide) 0

/-! ## Theorems: embeddings input coercion -/

/-- C10: the embeddings input coercion is total and lossy as described: a
string becomes a one-element list, an array yields exactly its string
elements in order (non-strings silently dropped), and numbers, objects,
booleans and null all yield the empty list. -/
theorem convertInputToSlice_spec :
    (∀ s : String, convertInputToSlice (.str s) = [s]) ∧
    (∀ xs : List GoJSONValue,
      convertInputToSlice (.arr xs) = (xs.filter GoJSONValue.isStr).map GoJSONValue.strVal) ∧
    convertInputToSlice .num = [] ∧
    convertInputToSlice .null = [] ∧
    (∀ fields, convertInputToSlice (.obj fields) = []) ∧
    (∀ b, convertInputToSlice (.boolean b) = []) := by
  refine ⟨fun s => rfl, ?_, rfl, rfl, fun fields => rfl, fun b => rfl⟩
  intro xs
  induction xs with
  | nil => rfl
  | cons x rest ih =>
    cases x <;>
      simpa [convertInputToSlice, GoJSONValue.isStr, GoJSONValue.strVal,
        List.filterMap_cons, List.filter_cons] using ih

/-! ## Theorems: format bridge round trip -/

/-- Counterexample to C6 as stated: at `bridgeProbe` (role `"user"`, finish
reason `"length"`), the round trip through the Ollama shape returns role
`"assistant"` and finish reason `"stop"`, so the composition is not the
identity on the claimed field set. -/
theorem bridge_roundtrip_counterexample :
    (bridgeRoundTrip bridgeProbe).map chatRole ≠ some (chatRole bridgeProbe) ∧
    (bridgeRoundTrip bridgeProbe).map chatFinish ≠ some (chatFinish bridgeProbe) := by
  decide

/-- C6 (amended): for an OpenAI-style response with a first choice, a present
message and a usage block, the round trip through the Ollama shape preserves
`content`, `prompt_eval_count` and `eval_count`; `role` comes back as the
constant `"assistant"` and `finish_reason` as the constant `"stop"`, so those
two fields are preserved exactly when they already held those values. -/
theorem bridge_roundtrip_amended (r : OpenAIChatResponse) (c : OpenAIChoice)
    (m : OpenAIMessage) (u : OpenAIUsage)
    (hc : r.choices.head? = some c) (hm : c.message = some m) (hu : r.usage = some u) :
    ∃ z, bridgeRoundTrip r = some z ∧
      chatContent z = chatContent r ∧
      chatPromptCount z = chatPromptCount r ∧
      chatEvalCount z = chatEvalCount r ∧
      chatRole z = some "assistant" ∧
      chatFinish z = some "stop" ∧
      (chatRole z = chatRole r ↔ m.role = "assistant") ∧
      (chatFinish z = chatFinish r ↔ c.finishReason = "stop") := by
  obtain ⟨cs, hcs⟩ : ∃ cs, r.choices = c :: cs := by
    cases hrc : r.choices with
    | nil => rw [hrc] at hc; simp at hc
    | cons a l =>
      rw [hrc] at hc
      simp only [List.head?_cons, Option.some_inj] at hc
      exact ⟨l, by rw [hc]⟩
  have hz : bridgeRoundTrip r = some
      { id := "chatcmpl-" ++ "ffffffff"
        object := "chat.completion"
        created := 0
        model := r.model
        choices :=
          [{ index := 0
             message := some { role := "assistant", content := m.content }
             finishReason := "stop" }]
        usage := some
          { promptTokens := u.promptTokens
            completionTokens := u.completionTokens
            totalTokens := u.promptTokens + u.completionTokens } } := by
    simp [bridgeRoundTrip, convertChatResponse, ollamaChatToOpenAIResponse, hcs, hm, hu]
  refine ⟨_, hz, ?_, ?_, ?_, ?_, ?_, ?_, ?_⟩ <;>
    simp [chatContent, chatRole, chatFinish, chatPromptCount, chatEvalCount,
      hcs, hm, hu, eq_comm]

/-! ## Theorems: dispatch core -/

/-- C1: the chain walk is strictly in configured order: an unavailable target
is skipped, an entry whose provider is absent from the map is skipped with
the tracker state untouched, a failing blocking call records one failure on
that target and advances the walk with the error retained, a successful
blocking call at the head is the one served with HTTP 200; and when every
present provider would succeed, the first entry that is neither skipped for
unavailability nor for a missing provider is exactly the one whose response
is served (exhaustion arising only when there is no such entry). -/
theorem dispatch_chain_order (provs : String → Option ProviderClient) (th : Int)
    (idSuffix : String) (now : Int) (reqModel : String) :
    (∀ e rest s le, isAvailable s (backendKey e) th = false →
      dispatchLoop provs th false idSuffix now reqModel (e :: rest) s le =
        dispatchLoop provs th false idSuffix now reqModel rest s le) ∧
    (∀ e rest s le, isAvailable s (backendKey e) th = true → provs e.provider = none →
      dispatchLoop provs th false idSuffix now reqModel (e :: rest) s le =
        dispatchLoop provs th false idSuffix now reqModel rest s le) ∧
    (∀ e rest s le p err, isAvailable s (backendKey e) th = true →
      provs e.provider = some p → p.chat e.model = .error err →
      dispatchLoop provs th false idSuffix now reqModel (e :: rest) s le =
        dispatchLoop provs th false idSuffix now reqModel rest
          (recordFailure s (backendKey e) th) (some err)) ∧
    (∀ e rest s le p r, isAvailable s (backendKey e) th = true →
      provs e.provider = some p → p.chat e.model = .ok r →
      dispatchLoop provs th false idSuffix now reqModel (e :: rest) s le =
        (.served e r, resetModel s (backendKey e))) ∧
    (∀ chain s le,
      (∀ e ∈ chain, ∀ p, provs e.provider = some p → (p.chat e.model).isOk = true) →
      (∀ e, chain.find? (viableEntry provs th s) = some e →
        ∃ p r, provs e.provider = some p ∧ p.chat e.model = .ok r ∧
          dispatchLoop provs th false idSuffix now reqModel chain s le =
            (.served e r, resetModel s (backendKey e))) ∧
      (chain.find? (viableEntry provs th s) = none →
        dispatchLoop provs th false idSuffix now reqModel chain s le =
          (.exhausted le, s))) := by
  refine ⟨?_, ?_, ?_, ?_, ?_⟩
  · intro e rest s le hav
    simp [dispatchLoop, hav]
  · intro e rest s le hav hnone
    simp [dispatchLoop, hav, hnone]
  · intro e rest s le p err hav hp hchat
    simp [dispatchLoop, hav, hp, hchat]
  · intro e rest s le p r hav hp hchat
    simp [dispatchLoop, hav, hp, hchat]
  · intro chain s le
    induction chain with
    | nil =>
      intro _
      exact ⟨fun e he => by simp at he, fun _ => by simp [dispatchLoop]⟩
    | cons e rest ih =>
      intro hall
      have hall' : ∀ x ∈ rest, ∀ p, provs x.provider = some p →
          (p.chat x.model).isOk = true :=
        fun x hx => hall x (List.mem_cons_of_mem _ hx)
      have hrec := ih hall'
      by_cases hv : viableEntry provs th s e = true
      · have hv' := hv
        simp only [viableEntry, Bool.and_eq_true] at hv'
        have hav : isAvailable s (backendKey e) th = true := hv'.1
        obtain ⟨p, hp⟩ : ∃ p, provs e.provider = some p :=
          Option.isSome_iff_exists.mp hv'.2
        have hok := hall e (List.mem_cons_self _ _) p hp
        obtain ⟨r, hr⟩ : ∃ r, p.chat e.model = .ok r := by
          cases hcc : p.chat e.model with
          | error m => rw [hcc] at hok; simp [Except.isOk, Except.toBool] at hok
          | ok r => exact ⟨r, rfl⟩
        constructor
        · intro e' he'
          rw [List.find?_cons_of_pos _ hv] at he'
          obtain rfl : e = e' := by injection he'
          exact ⟨p, r, hp, hr, by simp [dispatchLoop, hav, hp, hr]⟩
        · intro hnone
          rw [List.find?_cons_of_pos _ hv] at hnone
          cases hnone
      · have hskip : dispatchLoop provs th false idSuffix now reqModel (e :: rest) s le =
            dispatchLoop provs th false idSuffix now reqModel rest s le := by
          by_cases hav : isAvailable s (backendKey e) th = true
          · cases hpp : provs e.provider with
            | none => simp [dispatchLoop, hav, hpp]
            | some p => exact absurd (by simp [viableEntry, hav, hpp]) hv
          · have hav' : isAvailable s (backendKey e) th = false := by
              cases h2 : isAvailable s (backendKey e) th
              · rfl
              · exact absurd h2 hav
            simp [dispatchLoop, hav']
        constructor
        · intro e' he'
          rw [List.find?_cons_of_neg _ hv] at he'
          obtain ⟨p, r, hp, hr, heq⟩ := hrec.1 e' he'
          exact ⟨p, r, hp, hr, by rw [hskip, heq]⟩
        · intro hnone
          rw [List.find?_cons_of_neg _ hv] at hnone
          rw [hskip, hrec.2 hnone]

/-- Witness for C1: on a one-entry chain whose provider succeeds, the walk
serves that entry's response and resets its key. -/
theorem dispatch_chain_order_witness :
    dispatchLoop provsEx 3 false "0123abcd" 5 "m" [entryEx] (TrackerState.new 10000) none =
      (LoopResult.served entryEx respEx,
        resetModel (TrackerState.new 10000) (backendKey entryEx)) :=
  (dispatch_chain_order provsEx 3 "0123abcd" 5 "m").2.2.2.1 entryEx []
    (TrackerState.new 10000) none provEx respEx (by decide) rfl rfl

/-- C2: whenever the chain walk falls through exhausted, the handler emits
the single 503 of `handleAllProvidersFailed`: `Retry-After` is the
progressive timeout read before advancing divided by 1000 (which is the
floor for the non-negative timeout), the body is the last recorded error's
message or `"all providers failed"`, and the tracker's timeout advances
exactly once (`cycle` grows by one, timeout becomes `min(2t, max)`). -/
theorem exhaustion_503 (provs : String → Option ProviderClient)
    (th maxTimeout : Int) (streamFlag : Bool) (idSuffix : String) (now : Int)
    (reqModel : String) (chain : List ModelProviderEntry) (s : TrackerState)
    (le : Option String) (s1 : TrackerState)
    (hw : dispatchLoop provs th streamFlag idSuffix now reqModel chain s none =
      (.exhausted le, s1))
    (hpos : 0 ≤ s1.currentTimeout) :
    handleChatCompletions provs th maxTimeout streamFlag idSuffix now reqModel chain s =
      (.unavailable
        { status := 503
          retryAfter := s1.currentTimeout.tdiv 1000
          body := le.getD "all providers failed" },
        incrementTimeout s1 maxTimeout) ∧
    s1.currentTimeout.tdiv 1000 = s1.currentTimeout.fdiv 1000 ∧
    (incrementTimeout s1 maxTimeout).cycle = s1.cycle + 1 ∧
    (incrementTimeout s1 maxTimeout).currentTimeout =
      min (s1.currentTimeout * 2) maxTimeout := by
  refine ⟨?_, ?_, rfl, ?_⟩
  · simp [handleChatCompletions, hw, handleAllProvidersFailed, getProgressiveTimeout]
  · exact (Int.fdiv_eq_tdiv hpos (by norm_num)).symm
  · simp only [incrementTimeout]
    split <;> omega

/-- Witness for C2: the empty chain exhausts immediately; from the initial
10000 ms timeout the 503 carries `Retry-After: 10` and the timeout advances
once. -/
theorem exhaustion_503_witness :
    handleChatCompletions provsEx 3 300000 false "0123abcd" 5 "m" []
        (TrackerState.new 10000) =
      (.unavailable
        { status := 503
          retryAfter := (TrackerState.new 10000).currentTimeout.tdiv 1000
          body := (none : Option String).getD "all providers failed" },
        incrementTimeout (TrackerState.new 10000) 300000) ∧
    (TrackerState.new 10000).currentTimeout.tdiv 1000 =
      (TrackerState.new 10000).currentTimeout.fdiv 1000 ∧
    (incrementTimeout (TrackerState.new 10000) 300000).cycle =
      (TrackerState.new 10000).cycle + 1 ∧
    (incrementTimeout (TrackerState.new 10000) 300000).currentTimeout =
      min ((TrackerState.new 10000).currentTimeout * 2) 300000 :=
  exhaustion_503 provsEx 3 300000 false "0123abcd" 5 "m" []
    (TrackerState.new 10000) none (TrackerState.new 10000) rfl (by decide)

/-- C7: if the first viable entry's `StreamChat` fails before any bytes are
written, exactly one failure is recorded on that target (all other keys
untouched), the handler returns a 500 response, and dispatch does not try any
later chain entry (the outcome is independent of the rest of the chain). -/
theorem stream_start_failure_no_retry (provs : String → Option ProviderClient)
    (th maxTimeout : Int) (idSuffix : String) (now : Int) (reqModel : String)
    (e : ModelProviderEntry) (rest rest' : List ModelProviderEntry)
    (s : TrackerState) (le : Option String) (p : ProviderClient) (err : String)
    (hav : isAvailable s (backendKey e) th = true)
    (hp : provs e.provider = some p)
    (hs : p.streamChat e.model = .error err) :
    dispatchLoop provs th true idSuffix now reqModel (e :: rest) s le =
      (.streamFailed err, recordFailure s (backendKey e) th) ∧
    dispatchLoop provs th true idSuffix now reqModel (e :: rest) s le =
      dispatchLoop provs th true idSuffix now reqModel (e :: rest') s le ∧
    (recordFailure s (backendKey e) th).failureCounts (backendKey e) =
      s.failureCounts (backendKey e) + 1 ∧
    (∀ k, k ≠ backendKey e →
      (recordFailure s (backendKey e) th).failureCounts k = s.failureCounts k) ∧
    handleChatCompletions provs th maxTimeout true idSuffix now reqModel (e :: rest) s =
      (.serverError 500 err, recordFailure s (backendKey e) th) := by
  refine ⟨?_, ?_, ?_, ?_, ?_⟩
  · simp [dispatchLoop, hav, hp, hs]
  · simp [dispatchLoop, hav, hp, hs]
  · simp [recordFailure]
  · intro k hk
    simp only [recordFailure]
    rw [if_neg hk]
  · simp [handleChatCompletions, dispatchLoop, hav, hp, hs]

/-- Witness for C7: on a one-entry chain whose provider's stream start fails
with `"boom"`, the handler returns a 500, the key's count goes to 1 and
other keys stay at 0. -/
theorem stream_start_failure_no_retry_witness :
    handleChatCompletions provsEx 3 300000 true "0123abcd" 5 "m" [entryEx]
        (TrackerState.new 10000) =
      (.serverError 500 "boom",
        recordFailure (TrackerState.new 10000) (backendKey entryEx) 3) ∧
    (recordFailure (TrackerState.new 10000) (backendKey entryEx) 3).failureCounts
        (backendKey entryEx) =
      (TrackerState.new 10000).failureCounts (backendKey entryEx) + 1 ∧
    (recordFailure (TrackerState.new 10000) (backendKey entryEx) 3).failureCounts
        "other" =
      (TrackerState.new 10000).failureCounts "other" :=
  ⟨(stream_start_failure_no_retry provsEx 3 300000 "0123abcd" 5 "m" entryEx [] []
      (TrackerState.new 10000) none provEx "boom" (by decide) rfl rfl).2.2.2.2,
   (stream_start_failure_no_retry provsEx 3 300000 "0123abcd" 5 "m" entryEx [] []
      (TrackerState.new 10000) none provEx "boom" (by decide) rfl rfl).2.2.1,
   (stream_start_failure_no_retry provsEx 3 300000 "0123abcd" 5 "m" entryEx [] []
      (TrackerState.new 10000) none provEx "boom" (by decide) rfl rfl).2.2.2.1
     "other" (by decide)⟩

/-! ## Theorems: streaming pumps -/

/-- C8: within one SSE stream every emitted chat chunk carries the same id
`"chatcmpl-" + idSuffix` (with the suffix 8 hex characters), the same
`created` value fixed at stream start, and the client-requested model; and
every re-stamped legacy completion event likewise carries
`"cmpl-" + idSuffix`, the fixed `created` and the requested model. -/
theorem sse_identity_stability (idSuffix : String) (now : Int) (reqModel : String)
    (hhex : isHex8 idSuffix = true) :
    (∀ chunks item, item ∈ pumpChatSSE idSuffix now reqModel chunks →
      item = SSEItem.doneEv ∨ ∃ c, item = SSEItem.chunkEv c ∧
        c.id = "chatcmpl-" ++ idSuffix ∧ isHex8 idSuffix = true ∧
        c.created = now ∧ c.model = reqModel) ∧
    (∀ resps item, item ∈ pumpCompletionsSSE idSuffix now reqModel resps →
      item = CompSSEItem.doneEv ∨ ∃ r, item = CompSSEItem.respEv r ∧
        r.id = "cmpl-" ++ idSuffix ∧ isHex8 idSuffix = true ∧
        r.created = now ∧ r.model = reqModel) := by
  constructor
  · intro chunks item hmem
    simp only [pumpChatSSE, List.mem_append, List.mem_map, List.mem_singleton] at hmem
    rcases hmem with ⟨a, _, rfl⟩ | rfl
    · exact Or.inr ⟨_, rfl, rfl, hhex, rfl, rfl⟩
    · exact Or.inl rfl
  · intro resps item hmem
    simp only [pumpCompletionsSSE, List.mem_append, List.mem_map,
      List.mem_singleton] at hmem
    rcases hmem with ⟨a, _, rfl⟩ | rfl
    · exact Or.inr ⟨_, rfl, rfl, hhex, rfl, rfl⟩
    · exact Or.inl rfl

/-- Witness for C8: a concrete chunk event of a one-chunk stream carries the
stamped id, timestamp and requested model. -/
theorem sse_identity_stability_witness :
    SSEItem.chunkEv
        { id := "chatcmpl-" ++ "0123abcd", object := "chat.completion.chunk",
          created := 5, model := "m", choices := [] } = SSEItem.doneEv ∨
      ∃ c, SSEItem.chunkEv
        { id := "chatcmpl-" ++ "0123abcd", object := "chat.completion.chunk",
          created := 5, model := "m", choices := [] } = SSEItem.chunkEv c ∧
        c.id = "chatcmpl-" ++ "0123abcd" ∧ isHex8 "0123abcd" = true ∧
        c.created = 5 ∧ c.model = "m" :=
  (sse_identity_stability "0123abcd" 5 "m" (by decide)).1
    [{ choices := [] }] _ (by simp [pumpChatSSE])

/-- Counterexample to C4 as stated: an upstream that terminates with a read
error (not a clean close) still produces a client stream that ends with the
`data: [DONE]` sentinel, because the producer never consults the scanner
error and the pump appends the sentinel whenever the channel closes. -/
theorem done_sentinel_counterexample :
    endsWithDoneSentinel
        (streamClientView "0123abcd" 5 "m" (Except.ok []) UpstreamEnd.readError) = true ∧
    UpstreamEnd.readError ≠ UpstreamEnd.cleanEof := by
  constructor
  · rfl
  · decide

/-- C4 (amended): the client-visible SSE stream ends with the `data: [DONE]`
sentinel iff the initial `StreamChat` call succeeded; once streaming has
begun, the sentinel is emitted regardless of whether the upstream body closed
cleanly or failed mid-stream. -/
theorem done_sentinel_iff_stream_started (idSuffix : String) (now : Int)
    (reqModel : String) (res : Except String (List StreamLine))
    (cause : UpstreamEnd) :
    endsWithDoneSentinel (streamClientView idSuffix now reqModel res cause) =
      res.isOk := by
  cases res with
  | error m => rfl
  | ok lines =>
    simp only [streamClientView, endsWithDoneSentinel, pumpChatSSE,
      List.getLast?_concat]
    rfl

/-- Witness for C6 (amended): at `bridgeProbeAssistant` the round trip
preserves all five fields. -/
theorem bridge_roundtrip_amended_witness :
    ∃ z, bridgeRoundTrip bridgeProbeAssistant = some z ∧
      chatContent z = chatContent bridgeProbeAssistant ∧
      chatPromptCount z = chatPromptCount bridgeProbeAssistant ∧
      chatEvalCount z = chatEvalCount bridgeProbeAssistant ∧
      chatRole z = some "assistant" ∧
      chatFinish z = some "stop" ∧
      (chatRole z = chatRole bridgeProbeAssistant ↔
        OpenAIMessage.role ⟨"assistant", "hi"⟩ = "assistant") ∧
      (chatFinish z = chatFinish bridgeProbeAssistant ↔
        OpenAIChoice.finishReason ⟨0, some ⟨"assistant", "hi"⟩, "stop"⟩ = "stop") :=
  bridge_roundtrip_amended bridgeProbeAssistant
    ⟨0, some ⟨"assistant", "hi"⟩, "stop"⟩ ⟨"assistant", "hi"⟩ ⟨2, 3, 5⟩
    (by decide) (by decide) (by decide)

end OpenModel
